import Mathlib

/-!
A shallow embedding of the hubbub HTML parser fragment:
the element-type enumeration (src/treebuilder/element-type.h), the
"in select" insertion-mode handler (src/treebuilder/in_select.c), the
public parser shell (src/parser.c) and the sample tree handler used by
the perf harness (perf/hubbub.c).  Components of the library that are
declared but not present in this excerpt (treebuilder internals, input
stream, tokeniser) are modelled from the specification; each such
definition says so in its doc comment.
-/

namespace Hubbub

/-- Modelled from the spec (section 6, "Exit codes / error kinds"): the public
result enumeration `hubbub_error`.  The header defining it is not part of this
excerpt; the spec lists Ok, BadParameter, NoMemory, Encoding-Change-Required,
Paused, Reprocess and Invalid. -/
inductive hubbub_error : Type where
  | HUBBUB_OK
  | HUBBUB_REPROCESS
  | HUBBUB_ENCODINGCHANGE
  | HUBBUB_PAUSED
  | HUBBUB_NOMEM
  | HUBBUB_BADPARM
  | HUBBUB_INVALID
  deriving DecidableEq, Repr

/-- Modelled from the spec: the namespace tag carried by tags and attributes.
The sample handler (perf/hubbub.c) enumerates seven namespaces:
null, html, math, svg, xlink, xml, xmlns. -/
inductive hubbub_ns : Type where
  | HUBBUB_NS_NULL
  | HUBBUB_NS_HTML
  | HUBBUB_NS_MATHML
  | HUBBUB_NS_SVG
  | HUBBUB_NS_XLINK
  | HUBBUB_NS_XML
  | HUBBUB_NS_XMLNS
  deriving DecidableEq, Repr

/-- The element-type tag (src/treebuilder/element-type.h), constructor for
constructor in the order of the C enumeration; `UNKNOWN` is last. -/
inductive element_type : Type where
  | ADDRESS
  | AREA
  | ARTICLE
  | ASIDE
  | BASE
  | BASEFONT
  | BGSOUND
  | BLOCKQUOTE
  | BODY
  | BR
  | CENTER
  | COL
  | COLGROUP
  | COMMAND
  | DATAGRID
  | DD
  | DETAILS
  | DIALOG
  | DIR
  | DIV
  | DL
  | DT
  | EMBED
  | FIELDSET
  | FIGCAPTION
  | FIGURE
  | FOOTER
  | FORM
  | FRAME
  | FRAMESET
  | H1
  | H2
  | H3
  | H4
  | H5
  | H6
  | HEAD
  | HEADER
  | HR
  | IFRAME
  | IMAGE
  | IMG
  | INPUT
  | ISINDEX
  | LI
  | LINK
  | LISTING
  | MAIN
  | MENU
  | META
  | NAV
  | NOEMBED
  | NOFRAMES
  | NOSCRIPT
  | OL
  | OPTGROUP
  | OPTION
  | P
  | PARAM
  | PLAINTEXT
  | PRE
  | SCRIPT
  | SECTION
  | SELECT
  | SPACER
  | STYLE
  | SUMMARY
  | TBODY
  | TEXTAREA
  | TFOOT
  | THEAD
  | TITLE
  | TR
  | UL
  | WBR
  | APPLET
  | BUTTON
  | CAPTION
  | HTML
  | MARQUEE
  | OBJECT
  | TABLE
  | TD
  | TH
  | A
  | B
  | BIG
  | CODE
  | EM
  | FONT
  | I
  | NOBR
  | S
  | SMALL
  | STRIKE
  | STRONG
  | TT
  | U
  | LABEL
  | OUTPUT
  | RP
  | RT
  | RUBY
  | SPAN
  | SUB
  | SUP
  | VAR
  | XMP
  | MATH
  | MGLYPH
  | MALIGNMARK
  | MI
  | MO
  | MN
  | MS
  | MTEXT
  | ANNOTATION_XML
  | SVG
  | FOREIGNOBJECT
  | DESC
  | UNKNOWN
  deriving DecidableEq, Repr

/-- Every enumerator of `element_type`, in declaration order (chunked
concatenation keeps elaboration linear). -/
def element_type.all : List element_type :=
  [element_type.ADDRESS, element_type.AREA, element_type.ARTICLE, element_type.ASIDE, element_type.BASE, element_type.BASEFONT, element_type.BGSOUND, element_type.BLOCKQUOTE, element_type.BODY, element_type.BR, element_type.CENTER, element_type.COL, element_type.COLGROUP, element_type.COMMAND, element_type.DATAGRID] ++
  [element_type.DD, element_type.DETAILS, element_type.DIALOG, element_type.DIR, element_type.DIV, element_type.DL, element_type.DT, element_type.EMBED, element_type.FIELDSET, element_type.FIGCAPTION, element_type.FIGURE, element_type.FOOTER, element_type.FORM, element_type.FRAME, element_type.FRAMESET] ++
  [element_type.H1, element_type.H2, element_type.H3, element_type.H4, element_type.H5, element_type.H6, element_type.HEAD, element_type.HEADER, element_type.HR, element_type.IFRAME, element_type.IMAGE, element_type.IMG, element_type.INPUT, element_type.ISINDEX, element_type.LI] ++
  [element_type.LINK, element_type.LISTING, element_type.MAIN, element_type.MENU, element_type.META, element_type.NAV, element_type.NOEMBED, element_type.NOFRAMES, element_type.NOSCRIPT, element_type.OL, element_type.OPTGROUP, element_type.OPTION, element_type.P, element_type.PARAM, element_type.PLAINTEXT] ++
  [element_type.PRE, element_type.SCRIPT, element_type.SECTION, element_type.SELECT, element_type.SPACER, element_type.STYLE, element_type.SUMMARY, element_type.TBODY, element_type.TEXTAREA, element_type.TFOOT, element_type.THEAD, element_type.TITLE, element_type.TR, element_type.UL, element_type.WBR] ++
  [element_type.APPLET, element_type.BUTTON, element_type.CAPTION, element_type.HTML, element_type.MARQUEE, element_type.OBJECT, element_type.TABLE, element_type.TD, element_type.TH, element_type.A, element_type.B, element_type.BIG, element_type.CODE, element_type.EM, element_type.FONT] ++
  [element_type.I, element_type.NOBR, element_type.S, element_type.SMALL, element_type.STRIKE, element_type.STRONG, element_type.TT, element_type.U, element_type.LABEL, element_type.OUTPUT, element_type.RP, element_type.RT, element_type.RUBY, element_type.SPAN, element_type.SUB] ++
  [element_type.SUP, element_type.VAR, element_type.XMP, element_type.MATH, element_type.MGLYPH, element_type.MALIGNMARK, element_type.MI, element_type.MO, element_type.MN, element_type.MS, element_type.MTEXT, element_type.ANNOTATION_XML, element_type.SVG, element_type.FOREIGNOBJECT, element_type.DESC] ++
  [element_type.UNKNOWN]

/-- Modelled from the spec (section 4.3): the perfect-hash table from tag name
to element-type tag.  The generated hash table is not part of this excerpt; the
spec says the lookup is ASCII-case-insensitive for the HTML namespace and that
a miss yields `UNKNOWN`.  Modelled as an association list over the lower-case
spellings of the recognized names. -/
def element_type_table : List (String × element_type) :=
  [("address", element_type.ADDRESS), ("area", element_type.AREA), ("article", element_type.ARTICLE), ("aside", element_type.ASIDE), ("base", element_type.BASE), ("basefont", element_type.BASEFONT)] ++
  [("bgsound", element_type.BGSOUND), ("blockquote", element_type.BLOCKQUOTE), ("body", element_type.BODY), ("br", element_type.BR), ("center", element_type.CENTER), ("col", element_type.COL)] ++
  [("colgroup", element_type.COLGROUP), ("command", element_type.COMMAND), ("datagrid", element_type.DATAGRID), ("dd", element_type.DD), ("details", element_type.DETAILS), ("dialog", element_type.DIALOG)] ++
  [("dir", element_type.DIR), ("div", element_type.DIV), ("dl", element_type.DL), ("dt", element_type.DT), ("embed", element_type.EMBED), ("fieldset", element_type.FIELDSET)] ++
  [("figcaption", element_type.FIGCAPTION), ("figure", element_type.FIGURE), ("footer", element_type.FOOTER), ("form", element_type.FORM), ("frame", element_type.FRAME), ("frameset", element_type.FRAMESET)] ++
  [("h1", element_type.H1), ("h2", element_type.H2), ("h3", element_type.H3), ("h4", element_type.H4), ("h5", element_type.H5), ("h6", element_type.H6)] ++
  [("head", element_type.HEAD), ("header", element_type.HEADER), ("hr", element_type.HR), ("iframe", element_type.IFRAME), ("image", element_type.IMAGE), ("img", element_type.IMG)] ++
  [("input", element_type.INPUT), ("isindex", element_type.ISINDEX), ("li", element_type.LI), ("link", element_type.LINK), ("listing", element_type.LISTING), ("main", element_type.MAIN)] ++
  [("menu", element_type.MENU), ("meta", element_type.META), ("nav", element_type.NAV), ("noembed", element_type.NOEMBED), ("noframes", element_type.NOFRAMES), ("noscript", element_type.NOSCRIPT)] ++
  [("ol", element_type.OL), ("optgroup", element_type.OPTGROUP), ("option", element_type.OPTION), ("p", element_type.P), ("param", element_type.PARAM), ("plaintext", element_type.PLAINTEXT)] ++
  [("pre", element_type.PRE), ("script", element_type.SCRIPT), ("section", element_type.SECTION), ("select", element_type.SELECT), ("spacer", element_type.SPACER), ("style", element_type.STYLE)] ++
  [("summary", element_type.SUMMARY), ("tbody", element_type.TBODY), ("textarea", element_type.TEXTAREA), ("tfoot", element_type.TFOOT), ("thead", element_type.THEAD), ("title", element_type.TITLE)] ++
  [("tr", element_type.TR), ("ul", element_type.UL), ("wbr", element_type.WBR), ("applet", element_type.APPLET), ("button", element_type.BUTTON), ("caption", element_type.CAPTION)] ++
  [("html", element_type.HTML), ("marquee", element_type.MARQUEE), ("object", element_type.OBJECT), ("table", element_type.TABLE), ("td", element_type.TD), ("th", element_type.TH)] ++
  [("a", element_type.A), ("b", element_type.B), ("big", element_type.BIG), ("code", element_type.CODE), ("em", element_type.EM), ("font", element_type.FONT)] ++
  [("i", element_type.I), ("nobr", element_type.NOBR), ("s", element_type.S), ("small", element_type.SMALL), ("strike", element_type.STRIKE), ("strong", element_type.STRONG)] ++
  [("tt", element_type.TT), ("u", element_type.U), ("label", element_type.LABEL), ("output", element_type.OUTPUT), ("rp", element_type.RP), ("rt", element_type.RT)] ++
  [("ruby", element_type.RUBY), ("span", element_type.SPAN), ("sub", element_type.SUB), ("sup", element_type.SUP), ("var", element_type.VAR), ("xmp", element_type.XMP)] ++
  [("math", element_type.MATH), ("mglyph", element_type.MGLYPH), ("malignmark", element_type.MALIGNMARK), ("mi", element_type.MI), ("mo", element_type.MO), ("mn", element_type.MN)] ++
  [("ms", element_type.MS), ("mtext", element_type.MTEXT), ("annotation-xml", element_type.ANNOTATION_XML), ("svg", element_type.SVG), ("foreignobject", element_type.FOREIGNOBJECT), ("desc", element_type.DESC)]

/-- ASCII lower-casing of one character, as the C lookup's
case-insensitive compare performs it. -/
def ascii_lower_char (c : Char) : Char :=
  if c.toNat ≥ 65 ∧ c.toNat ≤ 90 then Char.ofNat (c.toNat + 32) else c

/-- ASCII lower-casing of a tag name. -/
def ascii_lower (s : String) : String :=
  ⟨s.data.map ascii_lower_char⟩

/-- Modelled from the spec (section 4.3): `element_type_from_name` maps a tag
name to its element-type tag, ASCII-case-insensitively, `UNKNOWN` on a
miss. -/
def element_type_from_name (name : String) : element_type :=
  match element_type_table.find? (fun p => p.1 == ascii_lower name) with
  | some p => p.2
  | none => element_type.UNKNOWN

/-- Token tag payload.  The in-select handler only inspects the tag name
(`token->data.tag.name`); the attribute sequence, namespace and self-closing
flag are not read by any function in this excerpt's treebuilder fragment and
are elided. -/
structure hubbub_tag where
  name : String
  deriving DecidableEq, Repr

/-- Token variants (spec section 3, "Token").  The doctype and end-of-file
payloads are not inspected by the in-select handler and are elided. -/
inductive hubbub_token : Type where
  | CHARACTER (data : String)
  | COMMENT (data : String)
  | DOCTYPE
  | START_TAG (tag : hubbub_tag)
  | END_TAG (tag : hubbub_tag)
  | EOF
  deriving DecidableEq, Repr

/-- An open-element-stack frame (spec section 3, "Open-element stack"):
namespace, element type, and the tree-handler node reference, modelled as an
opaque numeric id. -/
structure stack_frame where
  ns : hubbub_ns
  type : element_type
  node : Nat
  deriving DecidableEq, Repr

/-- The treebuilder context visible to the in-select handler: the open-element
stack, with the head of the list as the topmost (current) frame, and a counter
supplying fresh tree-handler node ids for newly inserted elements. -/
structure hubbub_treebuilder where
  element_stack : List stack_frame
  next_node : Nat
  deriving DecidableEq, Repr

/-- The tree handler as seen from the in-select handler: only `unref_node` is
invoked directly by it; the status returned for each node is the embedder's
choice (spec section 6: every vtable operation returns an error code). -/
structure tree_handler where
  unref_node : Nat → hubbub_error

/-- One entry of the trace recorded while the in-select handler processes a
token.  `pop_frame` records a frame removed from the open-element stack;
`unref_node` records the node passed to the tree handler's unref together with
the status the handler returned (the C source discards that status);
`parse_error` would record a parse-error report - the in-select handler never
emits one, all its parse-error sites being `/** \todo parse error */`. -/
inductive tb_call : Type where
  | pop_frame (f : stack_frame)
  | unref_node (node : Nat) (status : hubbub_error)
  | insert_element (tag : hubbub_tag)
  | append_text (data : String)
  | append_comment (data : String)
  | process_in_body (tag : hubbub_tag)
  | reset_insertion_mode
  | parse_error
  deriving DecidableEq, Repr

/-- Modelled from the spec: `current_node` yields the element type of the
topmost open-element-stack frame.  The stack is non-empty while the driver is
active (spec section 3, invariants); on an empty stack the model yields
`UNKNOWN`. -/
def current_node (tb : hubbub_treebuilder) : element_type :=
  match tb.element_stack with
  | [] => element_type.UNKNOWN
  | f :: _ => f.type

/-- Modelled from the spec: `prev_node` yields the element type of the frame
directly below the topmost one. -/
def prev_node (tb : hubbub_treebuilder) : element_type :=
  match tb.element_stack with
  | _ :: f :: _ => f.type
  | _ => element_type.UNKNOWN

/-- Modelled from the spec: `element_stack_pop` removes the topmost frame and
reports it; it fails only on an empty stack, which the section-3 invariant
rules out while the driver is active. -/
def element_stack_pop (tb : hubbub_treebuilder) :
    Option (stack_frame × hubbub_treebuilder) :=
  match tb.element_stack with
  | [] => none
  | f :: rest => some (f, { tb with element_stack := rest })

/-- The block repeated throughout `handle_in_select`:
`element_stack_pop(treebuilder, &ns, &otype, &node);` followed by
`treebuilder->tree_handler->unref_node(ctx, node);`.  The C source calls
`unref_node` even when the pop failed - then on the uninitialized local
`node`; every call site guards the block with a check that makes the stack
non-empty, so that undefined branch is unreachable, and the model leaves the
state unchanged there. -/
def pop_and_unref (th : tree_handler) (tb : hubbub_treebuilder) :
    hubbub_treebuilder × List tb_call :=
  match element_stack_pop tb with
  | some (f, tb') =>
      (tb', [tb_call.pop_frame f, tb_call.unref_node f.node (th.unref_node f.node)])
  | none => (tb, [])

/-- Modelled from the spec: `element_stack_pop_until` (treebuilder internals,
not in this excerpt) pops frames until a frame of the requested type has been
popped.  Per spec section 3 ("The tree-handler holds a counted reference on
each referenced node for the lifetime of its frame") and section 5
("`unref_node` follows removal"), each popped node is unreferenced. -/
def pop_until_list (th : tree_handler) (ty : element_type) :
    List stack_frame → List stack_frame × List tb_call
  | [] => ([], [])
  | f :: rest =>
      if f.type = ty then
        (rest, [tb_call.pop_frame f,
                tb_call.unref_node f.node (th.unref_node f.node)])
      else
        let r := pop_until_list th ty rest
        (r.1, tb_call.pop_frame f ::
              tb_call.unref_node f.node (th.unref_node f.node) :: r.2)

/-- Modelled from the spec: see `pop_until_list`. -/
def element_stack_pop_until (th : tree_handler) (tb : hubbub_treebuilder)
    (ty : element_type) : hubbub_treebuilder × List tb_call :=
  let r := pop_until_list th ty tb.element_stack
  ({ tb with element_stack := r.1 }, r.2)

/-- Modelled from the spec (section 4.4, "Scoping"): the stop set of the
stack-walk scope predicates.  For the select variant every element other than
optgroup and option stops the walk; otherwise the base scope stop set
applies. -/
def in_scope_stop (sel : Bool) (ty : element_type) : Bool :=
  if sel then
    if ty = element_type.OPTGROUP ∨ ty = element_type.OPTION then false
    else true
  else
    if ty = element_type.APPLET ∨ ty = element_type.CAPTION ∨
       ty = element_type.HTML ∨ ty = element_type.TABLE ∨
       ty = element_type.TD ∨ ty = element_type.TH ∨
       ty = element_type.MARQUEE ∨ ty = element_type.OBJECT then true
    else false

/-- Modelled from the spec (section 4.4, "Scoping"): the stack walk behind
`element_in_scope`, from the current node downwards. -/
def element_in_scope_list (ty : element_type) (sel : Bool) :
    List stack_frame → Bool
  | [] => false
  | f :: rest =>
      if f.type = ty then true
      else if in_scope_stop sel f.type then false
      else element_in_scope_list ty sel rest

/-- Modelled from the spec (section 4.4, "Scoping"): "element in scope" as a
stack-walk predicate; the second flag selects the select-scope stop set. -/
def element_in_scope (tb : hubbub_treebuilder) (ty : element_type)
    (sel : Bool) : Bool :=
  element_in_scope_list ty sel tb.element_stack

/-- Modelled from the spec: `insert_element` (treebuilder internals, not in
this excerpt) creates an element node for the tag via the tree handler,
appends it at the insertion point and pushes its frame onto the open-element
stack, the handler retaining a reference on it (spec section 3).  The fresh
node id comes from the treebuilder's counter; the recorded namespace is html,
the in-select handler running on html content. -/
def insert_element (tb : hubbub_treebuilder) (tag : hubbub_tag) :
    hubbub_treebuilder × List tb_call :=
  let f : stack_frame :=
    { ns := hubbub_ns.HUBBUB_NS_HTML,
      type := element_type_from_name tag.name,
      node := tb.next_node }
  ({ element_stack := f :: tb.element_stack, next_node := tb.next_node + 1 },
   [tb_call.insert_element tag])

/-- `handle_in_select` (src/treebuilder/in_select.c): the "in select"
insertion-mode handler.  Returns the reprocess flag the C function returns,
the updated treebuilder context, and the trace of stack operations and
tree-handler calls processing the token provoked. -/
def handle_in_select (th : tree_handler) (tb : hubbub_treebuilder)
    (token : hubbub_token) : Bool × hubbub_treebuilder × List tb_call :=
  match token with
  | hubbub_token.CHARACTER data =>
      (false, tb, [tb_call.append_text data])
  | hubbub_token.COMMENT data =>
      (false, tb, [tb_call.append_comment data])
  | hubbub_token.DOCTYPE =>
      -- C source: `/** \todo parse error */` - nothing is done
      (false, tb, [])
  | hubbub_token.START_TAG tag =>
      let type := element_type_from_name tag.name
      if type = element_type.HTML then
        -- "Process as if in body"
        (false, tb, [tb_call.process_in_body tag])
      else if type = element_type.OPTION then
        let s1 :=
          if current_node tb = element_type.OPTION then pop_and_unref th tb
          else (tb, [])
        let s2 := insert_element s1.1 tag
        (false, s2.1, s1.2 ++ s2.2)
      else if type = element_type.OPTGROUP then
        let s1 :=
          if current_node tb = element_type.OPTION then pop_and_unref th tb
          else (tb, [])
        let s2 :=
          if current_node s1.1 = element_type.OPTGROUP then
            pop_and_unref th s1.1
          else (s1.1, [])
        let s3 := insert_element s2.1 tag
        (false, s3.1, s1.2 ++ s2.2 ++ s3.2)
      else if type = element_type.SELECT ∨ type = element_type.INPUT ∨
          type = element_type.TEXTAREA then
        let s1 :=
          if element_in_scope tb element_type.SELECT true then
            let p := element_stack_pop_until th tb element_type.SELECT
            (p.1, p.2 ++ [tb_call.reset_insertion_mode])
          else
            -- fragment case; C source: `/** \todo parse error */`
            (tb, [])
        (decide (type ≠ element_type.SELECT), s1.1, s1.2)
      else
        -- C source: `/** \todo parse error */` - token dropped silently
        (false, tb, [])
  | hubbub_token.END_TAG tag =>
      let type := element_type_from_name tag.name
      if type = element_type.OPTGROUP then
        let s1 :=
          if current_node tb = element_type.OPTION ∧
              prev_node tb = element_type.OPTGROUP then pop_and_unref th tb
          else (tb, [])
        let s2 :=
          if current_node s1.1 = element_type.OPTGROUP then
            pop_and_unref th s1.1
          else
            -- C source: `/** \todo parse error */`
            (s1.1, [])
        (false, s2.1, s1.2 ++ s2.2)
      else if type = element_type.OPTION then
        let s1 :=
          if current_node tb = element_type.OPTION then pop_and_unref th tb
          else
            -- C source: `/** \todo parse error */`
            (tb, [])
        (false, s1.1, s1.2)
      else if type = element_type.SELECT then
        let s1 :=
          if element_in_scope tb element_type.SELECT true then
            let p := element_stack_pop_until th tb element_type.SELECT
            (p.1, p.2 ++ [tb_call.reset_insertion_mode])
          else
            -- fragment case; C source: `/** \todo parse error */`
            (tb, [])
        (false, s1.1, s1.2)
      else
        (false, tb, [])
  | hubbub_token.EOF => (false, tb, [])

/-- The frames a trace records as popped from the open-element stack. -/
def popped (tr : List tb_call) : List stack_frame :=
  tr.filterMap fun c =>
    match c with
    | tb_call.pop_frame f => some f
    | _ => none

/-- The node ids a trace records as passed to the tree handler's unref. -/
def unrefed (tr : List tb_call) : List Nat :=
  tr.filterMap fun c =>
    match c with
    | tb_call.unref_node n _ => some n
    | _ => none

/-- Whether a trace entry is a parse-error report. -/
def is_parse_error (c : tb_call) : Bool :=
  match c with
  | tb_call.parse_error => true
  | _ => false

/-- The number of parse errors a trace records. -/
def parse_errors (tr : List tb_call) : Nat :=
  (tr.filter is_parse_error).length

/-- Modelled from the spec: the input stream as seen by src/parser.c - its
implementation is not part of this excerpt.  For the parse-chunk pipeline
only the result `hubbub_inputstream_append` reports matters; which result
arises for which bytes is the stream's own business, so the model carries it
as a function of the appended bytes. -/
structure hubbub_inputstream where
  append_result : List Nat → hubbub_error

/-- Modelled from the spec: the tokeniser as seen by src/parser.c - its
implementation is not part of this excerpt.  For the parse-chunk pipeline
only the result of `hubbub_tokeniser_run` matters; registered handlers and
the content model are opaque ids stored by setopt. -/
structure hubbub_tokeniser where
  run_result : hubbub_error
  token_handler : Option Nat
  buffer_handler : Option Nat
  error_handler : Option Nat
  content_model : Option Nat

/-- Modelled from the spec: the treebuilder option state reachable through
src/parser.c's setopt switch. -/
structure treebuilder_opts where
  tree_handler : Option Nat
  document_node : Option Nat
  buffer_handler : Option Nat
  error_handler : Option Nat
  deriving DecidableEq, Repr

/-- The hubbub parser object of src/parser.c: input stream, tokeniser and
treebuilder; `tb = none` models `parser->tb == NULL`. -/
structure hubbub_parser_state where
  stream : hubbub_inputstream
  tok : hubbub_tokeniser
  tb : Option treebuilder_opts

/-- A pipeline stage `hubbub_parser_parse_chunk` executed, with its result. -/
inductive parse_stage : Type where
  | stream_append (data : List Nat) (result : hubbub_error)
  | tokeniser_run (result : hubbub_error)
  deriving DecidableEq, Repr

/-- Whether a stage is a tokeniser run. -/
def is_tokeniser_run (s : parse_stage) : Bool :=
  match s with
  | parse_stage.tokeniser_run _ => true
  | _ => false

/-- `hubbub_parser_parse_chunk` (src/parser.c lines 183-200): NULL-parameter
check, then append the bytes to the input stream, then - only when that
append returned OK - run the tokeniser; a non-OK result of either stage is
returned unchanged.  `none` for parser or data models a NULL argument.
Returns the C return value together with the log of the stages executed, in
order. -/
def hubbub_parser_parse_chunk (parser : Option hubbub_parser_state)
    (data : Option (List Nat)) : hubbub_error × List parse_stage :=
  match parser, data with
  | none, _ => (hubbub_error.HUBBUB_BADPARM, [])
  | some _, none => (hubbub_error.HUBBUB_BADPARM, [])
  | some p, some d =>
      let e1 := p.stream.append_result d
      if e1 ≠ hubbub_error.HUBBUB_OK then
        (e1, [parse_stage.stream_append d e1])
      else
        let e2 := p.tok.run_result
        if e2 ≠ hubbub_error.HUBBUB_OK then
          (e2, [parse_stage.stream_append d e1, parse_stage.tokeniser_run e2])
        else
          (hubbub_error.HUBBUB_OK,
           [parse_stage.stream_append d e1, parse_stage.tokeniser_run e2])

/-- The option types of `hubbub_parser_setopt` (spec section 6, "Parser
options"). -/
inductive hubbub_parser_opttype : Type where
  | TOKEN_HANDLER
  | BUFFER_HANDLER
  | ERROR_HANDLER
  | CONTENT_MODEL
  | TREE_HANDLER
  | DOCUMENT_NODE
  deriving DecidableEq, Repr

/-- The option types of `hubbub_tokeniser_setopt`. -/
inductive hubbub_tokeniser_opttype : Type where
  | TOKEN_HANDLER
  | BUFFER_HANDLER
  | ERROR_HANDLER
  | CONTENT_MODEL
  deriving DecidableEq, Repr

/-- The option types of `hubbub_treebuilder_setopt`. -/
inductive hubbub_treebuilder_opttype : Type where
  | BUFFER_HANDLER
  | ERROR_HANDLER
  | TREE_HANDLER
  | DOCUMENT_NODE
  deriving DecidableEq, Repr

/-- Modelled from the spec: `hubbub_tokeniser_setopt` - not part of this
excerpt - stores the supplied value for the option and reports OK. -/
def hubbub_tokeniser_setopt (tok : hubbub_tokeniser)
    (ty : hubbub_tokeniser_opttype) (v : Nat) :
    hubbub_error × hubbub_tokeniser :=
  match ty with
  | hubbub_tokeniser_opttype.TOKEN_HANDLER =>
      (hubbub_error.HUBBUB_OK, { tok with token_handler := some v })
  | hubbub_tokeniser_opttype.BUFFER_HANDLER =>
      (hubbub_error.HUBBUB_OK, { tok with buffer_handler := some v })
  | hubbub_tokeniser_opttype.ERROR_HANDLER =>
      (hubbub_error.HUBBUB_OK, { tok with error_handler := some v })
  | hubbub_tokeniser_opttype.CONTENT_MODEL =>
      (hubbub_error.HUBBUB_OK, { tok with content_model := some v })

/-- Modelled from the spec: `hubbub_treebuilder_setopt` - not part of this
excerpt - stores the supplied value for the option and reports OK. -/
def hubbub_treebuilder_setopt (tbo : treebuilder_opts)
    (ty : hubbub_treebuilder_opttype) (v : Nat) :
    hubbub_error × treebuilder_opts :=
  match ty with
  | hubbub_treebuilder_opttype.BUFFER_HANDLER =>
      (hubbub_error.HUBBUB_OK, { tbo with buffer_handler := some v })
  | hubbub_treebuilder_opttype.ERROR_HANDLER =>
      (hubbub_error.HUBBUB_OK, { tbo with error_handler := some v })
  | hubbub_treebuilder_opttype.TREE_HANDLER =>
      (hubbub_error.HUBBUB_OK, { tbo with tree_handler := some v })
  | hubbub_treebuilder_opttype.DOCUMENT_NODE =>
      (hubbub_error.HUBBUB_OK, { tbo with document_node := some v })

/-- `hubbub_parser_setopt` (src/parser.c lines 101-173).  `params = none`
models a NULL params pointer; the payload of non-NULL params is an opaque
id.  Returns the C return value and the parser as left behind. -/
def hubbub_parser_setopt (parser : Option hubbub_parser_state)
    (ty : hubbub_parser_opttype) (params : Option Nat) :
    hubbub_error × Option hubbub_parser_state :=
  match parser with
  | none => (hubbub_error.HUBBUB_BADPARM, parser)
  | some p =>
      match params with
      | none => (hubbub_error.HUBBUB_BADPARM, some p)
      | some v =>
          match ty with
          | hubbub_parser_opttype.TOKEN_HANDLER =>
              -- the client defines their own token handler, so the default
              -- treebuilder is destroyed; then the tokeniser gets the handler
              let p1 := if p.tb.isSome then { p with tb := none } else p
              let r := hubbub_tokeniser_setopt p1.tok
                  hubbub_tokeniser_opttype.TOKEN_HANDLER v
              (r.1, some { p1 with tok := r.2 })
          | hubbub_parser_opttype.BUFFER_HANDLER =>
              -- the buffer handler cascades: inform the treebuilder when
              -- there is one, else the tokeniser
              match p.tb with
              | some tbo =>
                  let r := hubbub_treebuilder_setopt tbo
                      hubbub_treebuilder_opttype.BUFFER_HANDLER v
                  (r.1, some { p with tb := some r.2 })
              | none =>
                  let r := hubbub_tokeniser_setopt p.tok
                      hubbub_tokeniser_opttype.BUFFER_HANDLER v
                  (r.1, some { p with tok := r.2 })
          | hubbub_parser_opttype.ERROR_HANDLER =>
              -- does not cascade: tell both the treebuilder (if extant) and
              -- the tokeniser
              match p.tb with
              | some tbo =>
                  let r1 := hubbub_treebuilder_setopt tbo
                      hubbub_treebuilder_opttype.ERROR_HANDLER v
                  let p1 := { p with tb := some r1.2 }
                  if r1.1 = hubbub_error.HUBBUB_OK then
                    let r2 := hubbub_tokeniser_setopt p1.tok
                        hubbub_tokeniser_opttype.ERROR_HANDLER v
                    (r2.1, some { p1 with tok := r2.2 })
                  else (r1.1, some p1)
              | none =>
                  let r2 := hubbub_tokeniser_setopt p.tok
                      hubbub_tokeniser_opttype.ERROR_HANDLER v
                  (r2.1, some { p with tok := r2.2 })
          | hubbub_parser_opttype.CONTENT_MODEL =>
              let r := hubbub_tokeniser_setopt p.tok
                  hubbub_tokeniser_opttype.CONTENT_MODEL v
              (r.1, some { p with tok := r.2 })
          | hubbub_parser_opttype.TREE_HANDLER =>
              match p.tb with
              | some tbo =>
                  let r := hubbub_treebuilder_setopt tbo
                      hubbub_treebuilder_opttype.TREE_HANDLER v
                  (r.1, some { p with tb := some r.2 })
              | none => (hubbub_error.HUBBUB_OK, some p)
          | hubbub_parser_opttype.DOCUMENT_NODE =>
              match p.tb with
              | some tbo =>
                  let r := hubbub_treebuilder_setopt tbo
                      hubbub_treebuilder_opttype.DOCUMENT_NODE v
                  (r.1, some { p with tb := some r.2 })
              | none => (hubbub_error.HUBBUB_OK, some p)

/-- Node types of the sample tree handler (perf/hubbub.c):
`enum { DOCTYPE, COMMENT, ELEMENT, CHARACTER }`. -/
inductive node_type : Type where
  | DOCTYPE
  | COMMENT
  | ELEMENT
  | CHARACTER
  deriving DecidableEq, Repr

/-- A sample-handler node (`struct node_t`, perf/hubbub.c).  `addr` stands for
the node's allocation address - distinct live nodes have distinct addresses;
`attrs` stands for the `data.element.attrs` pointer (the struct assignment
`*new_node = *old_node` copies that pointer, not the attribute array behind
it); `content` is `data.content` (comment and character data).  The
`child`/`next` links carry the tree; the `parent` and `prev` back-links
mirror them and are kept implicit. -/
inductive node_t : Type where
  | mk (addr : Nat) (type : node_type) (content : String) (attrs : Nat)
      (child : Option node_t) (next : Option node_t)

/-- Allocation address of a node. -/
def node_t.addr : node_t → Nat
  | node_t.mk a _ _ _ _ _ => a

/-- Node type of a node. -/
def node_t.type : node_t → node_type
  | node_t.mk _ t _ _ _ _ => t

/-- Comment or character content of a node. -/
def node_t.content : node_t → String
  | node_t.mk _ _ c _ _ _ => c

/-- The `data.element.attrs` pointer of a node. -/
def node_t.attrs : node_t → Nat
  | node_t.mk _ _ _ at_ _ _ => at_

/-- First child of a node. -/
def node_t.child : node_t → Option node_t
  | node_t.mk _ _ _ _ ch _ => ch

/-- Next sibling of a node. -/
def node_t.next : node_t → Option node_t
  | node_t.mk _ _ _ _ _ nx => nx

/-- `clone_node` (perf/hubbub.c lines 388-424).  `fresh` supplies the
addresses of the calloc'd copies; the returned counter is past every address
used.  The struct assignment `*new_node = *old_node` copies type, content and
the attrs pointer; the four links are then reset to NULL; when `deep` is set
the sibling chain (`old_node->next`) and then the child chain
(`old_node->child`) are cloned recursively, exactly as the source does. -/
def clone_node (fresh : Nat) (old : node_t) (deep : Bool) : node_t × Nat :=
  match old with
  | node_t.mk _ ty content attrs child next =>
      if deep then
        let rn : Option node_t × Nat :=
          match next with
          | some n => let c := clone_node (fresh + 1) n true; (some c.1, c.2)
          | none => (none, fresh + 1)
        let rc : Option node_t × Nat :=
          match child with
          | some n => let c := clone_node rn.2 n true; (some c.1, c.2)
          | none => (none, rn.2)
        (node_t.mk fresh ty content attrs rc.1 rn.1, rc.2)
      else
        (node_t.mk fresh ty content attrs none none, fresh + 1)

/-- The last node of a sibling chain - the
`while (insert->next != NULL) insert = insert->next;` walk of append_child
(perf/hubbub.c lines 302-304). -/
def last_sibling (n : node_t) : node_t :=
  match n with
  | node_t.mk _ _ _ _ _ (some nx) => last_sibling nx
  | _ => n

/-- The tail of `append_child` once `insert` points at the head of the
existing sibling chain (perf/hubbub.c lines 302-317): walk to the last
sibling; if both it and the appended child are character nodes, concatenate
the child's content onto the existing node (which `*result` is then left
pointing at); otherwise link the child as the new last sibling and leave
`*result` at the child.  Returns the updated chain and the resulting
address. -/
def append_last (chain : node_t) (child : node_t) : node_t × Nat :=
  match chain with
  | node_t.mk a ty cont attrs ch (some nx) =>
      let r := append_last nx child
      (node_t.mk a ty cont attrs ch (some r.1), r.2)
  | node_t.mk a ty cont attrs ch none =>
      if child.type = node_type.CHARACTER ∧ ty = node_type.CHARACTER then
        (node_t.mk a ty (cont ++ child.content) attrs ch none, a)
      else
        (node_t.mk a ty cont attrs ch (some child), child.addr)

/-- The sibling-link reset `tchild->next = tchild->prev = NULL` performed on
the child at the start of append_child (perf/hubbub.c line 284); the child's
own child chain is kept. -/
def clear_next (n : node_t) : node_t :=
  match n with
  | node_t.mk a t cont attrs ch _ => node_t.mk a t cont attrs ch none

/-- `append_child` (perf/hubbub.c lines 274-320).  `parent = none` models the
document sentinel `(void *)1`, and `document` is the global `Document`
variable.  The child's sibling links are reset first
(`tchild->next = tchild->prev = NULL`; its own child chain is kept), and
`*result` starts at the child.  Returns the new document root chain, the new
parent when the parent is a node, and the address `*result` is left pointing
at. -/
def append_child (document : Option node_t) (parent : Option node_t)
    (child : node_t) : Option node_t × Option node_t × Nat :=
  let c := clear_next child
  match parent with
  | none =>
      match document with
      | none => (some c, none, c.addr)
      | some doc =>
          let r := append_last doc c
          (some r.1, none, r.2)
  | some p =>
      match p with
      | node_t.mk a t cont attrs none nx =>
          (document, some (node_t.mk a t cont attrs (some c) nx), c.addr)
      | node_t.mk a t cont attrs (some pc) nx =>
          let r := append_last pc c
          (document, some (node_t.mk a t cont attrs (some r.1) nx), r.2)

/-- Structural agreement of a clone with its original: same type, content and
attrs pointer, and recursively matching child and sibling chains; the clone's
own addresses are ignored. -/
def clone_matches : node_t → node_t → Bool
  | node_t.mk _ t c a ch nx, node_t.mk _ t' c' a' ch' nx' =>
      decide (t = t') && decide (c = c') && decide (a = a') &&
      (match ch, ch' with
       | none, none => true
       | some x, some y => clone_matches x y
       | _, _ => false) &&
      (match nx, nx' with
       | none, none => true
       | some x, some y => clone_matches x y
       | _, _ => false)

/-- Example tree handler whose unref always reports OK. -/
def th_ok : tree_handler := ⟨fun _ => hubbub_error.HUBBUB_OK⟩

/-- Example tree handler whose unref always reports memory exhaustion. -/
def th_nomem : tree_handler := ⟨fun _ => hubbub_error.HUBBUB_NOMEM⟩

/-- Example open-element-stack frame: an option element on node 7. -/
def frame_option : stack_frame :=
  ⟨hubbub_ns.HUBBUB_NS_HTML, element_type.OPTION, 7⟩

/-- Example open-element-stack frame: a select element on node 3. -/
def frame_select : stack_frame :=
  ⟨hubbub_ns.HUBBUB_NS_HTML, element_type.SELECT, 3⟩

/-- Example open-element-stack frame: the body element on node 2. -/
def frame_body : stack_frame :=
  ⟨hubbub_ns.HUBBUB_NS_HTML, element_type.BODY, 2⟩

/-- Example open-element-stack frame: the html root on node 1. -/
def frame_html : stack_frame :=
  ⟨hubbub_ns.HUBBUB_NS_HTML, element_type.HTML, 1⟩

/-- Example treebuilder context while parsing
`<select><option>` - current node an option inside a select. -/
def tb_example : hubbub_treebuilder :=
  ⟨[frame_option, frame_select, frame_body, frame_html], 10⟩

/-- Example input stream whose append always reports memory exhaustion. -/
def stream_nomem : hubbub_inputstream := ⟨fun _ => hubbub_error.HUBBUB_NOMEM⟩

/-- Example input stream whose append always reports OK. -/
def stream_ok : hubbub_inputstream := ⟨fun _ => hubbub_error.HUBBUB_OK⟩

/-- Example tokeniser whose run reports OK, with nothing registered. -/
def tok_ok : hubbub_tokeniser :=
  ⟨hubbub_error.HUBBUB_OK, none, none, none, none⟩

/-- Example parser whose input-stream append fails with NoMemory. -/
def parser_nomem : hubbub_parser_state :=
  ⟨stream_nomem, tok_ok, some ⟨none, none, none, none⟩⟩

/-- Example parser with the default treebuilder still in place. -/
def parser_with_tb : hubbub_parser_state :=
  ⟨stream_ok, tok_ok, some ⟨none, none, none, none⟩⟩

/-- Example sample-DOM node: a character child at address 2. -/
def node_kid : node_t := node_t.mk 2 node_type.CHARACTER "kid" 0 none none

/-- Example sample-DOM node: an element sibling at address 3 with attrs
pointer 9. -/
def node_sib : node_t := node_t.mk 3 node_type.ELEMENT "" 9 none none

/-- Example sample-DOM node: an element at address 1 with attrs pointer 5, one
child and one following sibling. -/
def node_example : node_t :=
  node_t.mk 1 node_type.ELEMENT "" 5 (some node_kid) (some node_sib)

/-- Example sample-DOM node: a character node "ab" at address 4. -/
def node_char_ab : node_t := node_t.mk 4 node_type.CHARACTER "ab" 0 none none

/-- Example sample-DOM node: an element parent at address 5 whose only child
is the character node "ab". -/
def node_parent : node_t :=
  node_t.mk 5 node_type.ELEMENT "" 0 (some node_char_ab) none

/-- Example sample-DOM node: a character node "cd" at address 6. -/
def node_char_cd : node_t := node_t.mk 6 node_type.CHARACTER "cd" 0 none none

/-- Example sample-DOM node: an element at address 7 with no links. -/
def node_elem_7 : node_t := node_t.mk 7 node_type.ELEMENT "" 0 none none

/-- C9: the element-type tag is a closed enumeration - 120 recognized element
names plus the distinguished `UNKNOWN` - with `UNKNOWN` the final enumerator,
the enumerators pairwise distinct, every value of the type listed, and every
recognized element type distinct from `UNKNOWN`. -/
theorem c9_element_type_closed_enumeration :
    element_type.all.length = 120 + 1 ∧
    element_type.all.getLast? = some element_type.UNKNOWN ∧
    element_type.all.Nodup ∧
    (∀ t : element_type, t ∈ element_type.all) ∧
    (∀ t ∈ element_type.all.dropLast, t ≠ element_type.UNKNOWN) := by
  refine ⟨by decide, by decide, by decide, ?_, by decide⟩
  intro t
  cases t <;> decide

/-- C1: in the in-select insertion mode, a start tag of element type OPTION
arriving while the current node is an option element pops exactly one frame
from the open-element stack and issues exactly one unref_node, against that
popped frame's node, before the new option element is inserted. -/
theorem c1_second_option_closes_first (th : tree_handler)
    (tb : hubbub_treebuilder) (tag : hubbub_tag) (f : stack_frame)
    (rest : List stack_frame)
    (hstack : tb.element_stack = f :: rest)
    (hcur : f.type = element_type.OPTION)
    (hname : element_type_from_name tag.name = element_type.OPTION) :
    handle_in_select th tb (hubbub_token.START_TAG tag) =
      (false,
       { element_stack :=
           { ns := hubbub_ns.HUBBUB_NS_HTML,
             type := element_type.OPTION,
             node := tb.next_node } :: rest,
         next_node := tb.next_node + 1 },
       [tb_call.pop_frame f,
        tb_call.unref_node f.node (th.unref_node f.node),
        tb_call.insert_element tag]) := by
  simp [handle_in_select, hname, current_node, hstack, hcur, pop_and_unref,
        element_stack_pop, insert_element]

/-- C1 witness: the concrete `<select><option>` context processing a second
`<option>` start tag. -/
theorem c1_witness :
    handle_in_select th_ok tb_example (hubbub_token.START_TAG ⟨"option"⟩) =
      (false,
       ⟨[⟨hubbub_ns.HUBBUB_NS_HTML, element_type.OPTION, 10⟩,
         frame_select, frame_body, frame_html], 11⟩,
       [tb_call.pop_frame frame_option,
        tb_call.unref_node 7 hubbub_error.HUBBUB_OK,
        tb_call.insert_element ⟨"option"⟩]) :=
  c1_second_option_closes_first th_ok tb_example ⟨"option"⟩ frame_option
    [frame_select, frame_body, frame_html] rfl rfl (by decide)

/-- C2 (code bug): processing an `<option>` start tag in in-select mode while
the current node is an option, with a tree handler whose unref_node reports
NoMemory, the handler receives and then discards that status - the trace
records the NoMemory result - and carries on to insert the new element; the
reprocess flag and resulting treebuilder context are identical to those under
an always-OK handler, and the handler's result type carries no error at all,
so nothing reaches the caller of hubbub_parser_parse_chunk. -/
theorem c2_unref_error_discarded :
    handle_in_select th_nomem tb_example (hubbub_token.START_TAG ⟨"option"⟩) =
      (false,
       ⟨[⟨hubbub_ns.HUBBUB_NS_HTML, element_type.OPTION, 10⟩,
         frame_select, frame_body, frame_html], 11⟩,
       [tb_call.pop_frame frame_option,
        tb_call.unref_node 7 hubbub_error.HUBBUB_NOMEM,
        tb_call.insert_element ⟨"option"⟩]) ∧
    (handle_in_select th_nomem tb_example
        (hubbub_token.START_TAG ⟨"option"⟩)).1 =
      (handle_in_select th_ok tb_example
        (hubbub_token.START_TAG ⟨"option"⟩)).1 ∧
    (handle_in_select th_nomem tb_example
        (hubbub_token.START_TAG ⟨"option"⟩)).2.1 =
      (handle_in_select th_ok tb_example
        (hubbub_token.START_TAG ⟨"option"⟩)).2.1 := by
  decide

/-- C8 (code bug): in in-select mode a DOCTYPE token and an unrecognized start
tag (here `<p>`) are dropped with no effect at all: the trace is empty, so in
particular no parse error is reported, although a `parse_error` trace entry
exists for exactly that report. -/
theorem c8_dropped_without_parse_error :
    handle_in_select th_ok tb_example hubbub_token.DOCTYPE =
      (false, tb_example, []) ∧
    handle_in_select th_ok tb_example (hubbub_token.START_TAG ⟨"p"⟩) =
      (false, tb_example, []) ∧
    parse_errors
      (handle_in_select th_ok tb_example hubbub_token.DOCTYPE).2.2 = 0 ∧
    parse_errors
      (handle_in_select th_ok tb_example
        (hubbub_token.START_TAG ⟨"p"⟩)).2.2 = 0 := by
  decide

/-- C3: for every parse_chunk call with non-NULL parser and data, the bytes
are first appended to the input stream; when the append does not return OK,
that error is returned unchanged and the tokeniser is not run; when the
append returns OK, the tokeniser runs and a non-OK run result is returned
unchanged (an OK run yields OK). -/
theorem c3_parse_chunk_pipeline (p : hubbub_parser_state) (d : List Nat) :
    ((hubbub_parser_parse_chunk (some p) (some d)).2.head? =
        some (parse_stage.stream_append d (p.stream.append_result d))) ∧
    (p.stream.append_result d ≠ hubbub_error.HUBBUB_OK →
        hubbub_parser_parse_chunk (some p) (some d) =
          (p.stream.append_result d,
           [parse_stage.stream_append d (p.stream.append_result d)])) ∧
    (p.stream.append_result d = hubbub_error.HUBBUB_OK →
        hubbub_parser_parse_chunk (some p) (some d) =
          (p.tok.run_result,
           [parse_stage.stream_append d hubbub_error.HUBBUB_OK,
            parse_stage.tokeniser_run p.tok.run_result])) := by
  by_cases h1 : p.stream.append_result d = hubbub_error.HUBBUB_OK
  · by_cases h2 : p.tok.run_result = hubbub_error.HUBBUB_OK <;>
      simp [hubbub_parser_parse_chunk, h1, h2]
  · simp [hubbub_parser_parse_chunk, h1]

/-- C3 witness: a parser whose input-stream append reports NoMemory - the
error comes back unchanged and the tokeniser stage is absent from the log. -/
theorem c3_witness :
    hubbub_parser_parse_chunk (some parser_nomem) (some [0, 1]) =
      (hubbub_error.HUBBUB_NOMEM,
       [parse_stage.stream_append [0, 1] hubbub_error.HUBBUB_NOMEM]) :=
  (c3_parse_chunk_pipeline parser_nomem [0, 1]).2.1 (by decide)

/-- C7 (counterexample): after setting TOKEN_HANDLER, a setopt call with
TREE_HANDLER whose params pointer is NULL returns BadParameter, not Ok - the
claim that every TREE_HANDLER or DOCUMENT_NODE call then returns Ok fails on
NULL params. -/
theorem c7_counterexample :
    (hubbub_parser_setopt
        (hubbub_parser_setopt (some parser_with_tb)
            hubbub_parser_opttype.TOKEN_HANDLER (some 5)).2
        hubbub_parser_opttype.TREE_HANDLER none).1 =
      hubbub_error.HUBBUB_BADPARM ∧
    hubbub_error.HUBBUB_BADPARM ≠ hubbub_error.HUBBUB_OK := by
  exact ⟨rfl, by decide⟩

/-- C7 (amended): setting the TOKEN_HANDLER option destroys the treebuilder -
the parser is left with tb NULL - and registers the handler on the tokeniser;
after that, every setopt call with TREE_HANDLER or DOCUMENT_NODE and non-NULL
params returns Ok while changing nothing, while a call with NULL params
returns BadParameter, also changing nothing. -/
theorem c7_token_handler_bypasses_treebuilder (p : hubbub_parser_state)
    (v w : Nat) :
    ∃ p1 : hubbub_parser_state,
      hubbub_parser_setopt (some p)
          hubbub_parser_opttype.TOKEN_HANDLER (some v) =
        (hubbub_error.HUBBUB_OK, some p1) ∧
      p1.tb = none ∧
      p1.tok.token_handler = some v ∧
      hubbub_parser_setopt (some p1)
          hubbub_parser_opttype.TREE_HANDLER (some w) =
        (hubbub_error.HUBBUB_OK, some p1) ∧
      hubbub_parser_setopt (some p1)
          hubbub_parser_opttype.DOCUMENT_NODE (some w) =
        (hubbub_error.HUBBUB_OK, some p1) ∧
      hubbub_parser_setopt (some p1)
          hubbub_parser_opttype.TREE_HANDLER none =
        (hubbub_error.HUBBUB_BADPARM, some p1) := by
  refine ⟨⟨p.stream, { p.tok with token_handler := some v }, none⟩,
          ?_, rfl, rfl, ?_, ?_, rfl⟩
  · cases hp : p.tb <;>
      simp [hubbub_parser_setopt, hubbub_tokeniser_setopt, hp]
  · simp [hubbub_parser_setopt]
  · simp [hubbub_parser_setopt]

/-- Unref extraction distributes over trace concatenation. -/
theorem unrefed_append (a b : List tb_call) :
    unrefed (a ++ b) = unrefed a ++ unrefed b := by
  simp [unrefed, List.filterMap_append]

/-- Pop extraction distributes over trace concatenation. -/
theorem popped_append (a b : List tb_call) :
    popped (a ++ b) = popped a ++ popped b := by
  simp [popped, List.filterMap_append]

/-- The empty trace records no unrefs. -/
theorem unrefed_nil : unrefed ([] : List tb_call) = [] := rfl

/-- The empty trace records no pops. -/
theorem popped_nil : popped ([] : List tb_call) = [] := rfl

/-- An insertion records no unref. -/
theorem unrefed_insert_singleton (t : hubbub_tag) :
    unrefed [tb_call.insert_element t] = [] := rfl

/-- An insertion records no pop. -/
theorem popped_insert_singleton (t : hubbub_tag) :
    popped [tb_call.insert_element t] = [] := rfl

/-- Delegating a tag to the in-body mode records no unref. -/
theorem unrefed_in_body_singleton (t : hubbub_tag) :
    unrefed [tb_call.process_in_body t] = [] := rfl

/-- Delegating a tag to the in-body mode records no pop. -/
theorem popped_in_body_singleton (t : hubbub_tag) :
    popped [tb_call.process_in_body t] = [] := rfl

/-- An insertion-mode reset records no unref. -/
theorem unrefed_reset_singleton :
    unrefed [tb_call.reset_insertion_mode] = [] := rfl

/-- An insertion-mode reset records no pop. -/
theorem popped_reset_singleton :
    popped [tb_call.reset_insertion_mode] = [] := rfl

/-- In the trace of one pop-and-unref block, the node unreferenced is exactly
the popped frame's node. -/
theorem pop_and_unref_balance (th : tree_handler) (tb : hubbub_treebuilder) :
    unrefed (pop_and_unref th tb).2 =
      (popped (pop_and_unref th tb).2).map stack_frame.node := by
  unfold pop_and_unref
  cases element_stack_pop tb with
  | none => simp [unrefed, popped]
  | some x => simp [unrefed, popped]

/-- In the trace of popping until a type, every popped frame is unreferenced,
in order. -/
theorem pop_until_balance (th : tree_handler) (ty : element_type) :
    ∀ stack : List stack_frame,
      unrefed (pop_until_list th ty stack).2 =
        (popped (pop_until_list th ty stack).2).map stack_frame.node := by
  intro stack
  induction stack with
  | nil => simp [pop_until_list, unrefed, popped]
  | cons f rest ih =>
      by_cases h : f.type = ty
      · simp [pop_until_list, h, unrefed, popped]
      · simp [pop_until_list, h, unrefed, popped] at ih ⊢
        exact ih

/-- C4: node references held by the in-select handler are balanced - for
every token and treebuilder context, the nodes unreferenced in the trace are
exactly the nodes of the frames popped from the open-element stack, in order;
so each removed node receives exactly one unref_node and no node still on the
stack is unreferenced. -/
theorem c4_unref_balances_pop (th : tree_handler) (tb : hubbub_treebuilder)
    (token : hubbub_token) :
    unrefed (handle_in_select th tb token).2.2 =
      (popped (handle_in_select th tb token).2.2).map stack_frame.node := by
  cases token with
  | CHARACTER d => simp [handle_in_select, unrefed, popped]
  | COMMENT d => simp [handle_in_select, unrefed, popped]
  | DOCTYPE => simp [handle_in_select, unrefed, popped]
  | EOF => simp [handle_in_select, unrefed, popped]
  | START_TAG tag =>
      simp only [handle_in_select]
      split_ifs <;>
        simp [insert_element, element_stack_pop_until, unrefed_append,
              popped_append, pop_and_unref_balance, pop_until_balance,
              unrefed_nil, popped_nil, unrefed_insert_singleton,
              popped_insert_singleton, unrefed_reset_singleton,
              popped_reset_singleton, unrefed_in_body_singleton,
              popped_in_body_singleton, List.map_append]
  | END_TAG tag =>
      simp only [handle_in_select]
      split_ifs <;>
        simp [element_stack_pop_until, unrefed_append, popped_append,
              pop_and_unref_balance, pop_until_balance, unrefed_nil,
              popped_nil, unrefed_reset_singleton, popped_reset_singleton,
              List.map_append]

/-- A popped frame heads the pop extraction of a trace. -/
theorem popped_cons_pop (f : stack_frame) (tr : List tb_call) :
    popped (tb_call.pop_frame f :: tr) = f :: popped tr := by
  simp [popped]

/-- An unref entry does not contribute to the pop extraction of a trace. -/
theorem popped_cons_unref (n : Nat) (s : hubbub_error) (tr : List tb_call) :
    popped (tb_call.unref_node n s :: tr) = popped tr := by
  simp [popped]

/-- A successful scope walk locates a frame of the requested type: the stack
splits at the first frame of that type. -/
theorem element_in_scope_split (ty : element_type) (sel : Bool) :
    ∀ stack : List stack_frame,
      element_in_scope_list ty sel stack = true →
      ∃ pref f suff, stack = pref ++ f :: suff ∧ f.type = ty ∧
        ∀ g ∈ pref, g.type ≠ ty := by
  intro stack
  induction stack with
  | nil => intro h; simp [element_in_scope_list] at h
  | cons f rest ih =>
      intro h
      by_cases hf : f.type = ty
      · exact ⟨[], f, rest, rfl, hf, by simp⟩
      · by_cases hs : in_scope_stop sel f.type
        · simp [element_in_scope_list, hf, hs] at h
        · simp only [element_in_scope_list, hf, hs, if_false,
            Bool.false_eq_true, if_neg] at h
          obtain ⟨pref, g, suff, heq, hg, hpref⟩ := ih h
          refine ⟨f :: pref, g, suff, by simp [heq], hg, ?_⟩
          intro x hx
          rcases List.mem_cons.mp hx with hx | hx
          · rw [hx]; exact hf
          · exact hpref x hx

/-- Popping until a type, on a stack whose first frame of that type follows a
prefix free of it, removes exactly the prefix and that frame, leaving the
suffix. -/
theorem pop_until_split (th : tree_handler) (ty : element_type)
    (f : stack_frame) (suff : List stack_frame) (hf : f.type = ty) :
    ∀ pref : List stack_frame, (∀ g ∈ pref, g.type ≠ ty) →
      (pop_until_list th ty (pref ++ f :: suff)).1 = suff ∧
      popped (pop_until_list th ty (pref ++ f :: suff)).2 = pref ++ [f] := by
  intro pref
  induction pref with
  | nil =>
      intro _
      simp [pop_until_list, hf, popped_cons_pop, popped_cons_unref, popped_nil]
  | cons g pref ih =>
      intro hp
      have hg : g.type ≠ ty := hp g (List.mem_cons_self g pref)
      have hrest := ih (fun x hx => hp x (List.mem_cons_of_mem g hx))
      simp only [List.cons_append, pop_until_list, hg, if_neg, ite_false]
      constructor
      · exact hrest.1
      · rw [popped_cons_pop, popped_cons_unref]
        exact congrArg (fun l => g :: l) hrest.2

/-- C10: in in-select mode a start tag of type SELECT, INPUT or TEXTAREA,
while a select element is in select scope, pops the open-element stack up to
and including the (topmost) select element and resets the insertion mode; the
token is reprocessed exactly when its type is INPUT or TEXTAREA. -/
theorem c10_select_like_start_tag (th : tree_handler)
    (tb : hubbub_treebuilder) (tag : hubbub_tag)
    (hty : element_type_from_name tag.name = element_type.SELECT ∨
           element_type_from_name tag.name = element_type.INPUT ∨
           element_type_from_name tag.name = element_type.TEXTAREA)
    (hscope : element_in_scope tb element_type.SELECT true = true) :
    ∃ pref f suff,
      tb.element_stack = pref ++ f :: suff ∧
      f.type = element_type.SELECT ∧
      (∀ g ∈ pref, g.type ≠ element_type.SELECT) ∧
      (handle_in_select th tb
          (hubbub_token.START_TAG tag)).2.1.element_stack = suff ∧
      popped (handle_in_select th tb
          (hubbub_token.START_TAG tag)).2.2 = pref ++ [f] ∧
      tb_call.reset_insertion_mode ∈
        (handle_in_select th tb (hubbub_token.START_TAG tag)).2.2 ∧
      ((handle_in_select th tb (hubbub_token.START_TAG tag)).1 = true ↔
        element_type_from_name tag.name = element_type.INPUT ∨
        element_type_from_name tag.name = element_type.TEXTAREA) := by
  obtain ⟨pref, f, suff, hsplit, hf, hpref⟩ :=
    element_in_scope_split element_type.SELECT true tb.element_stack hscope
  have hpu := pop_until_split th element_type.SELECT f suff hf pref hpref
  refine ⟨pref, f, suff, hsplit, hf, hpref, ?_, ?_, ?_, ?_⟩ <;>
    rcases hty with h | h | h <;>
      simp [handle_in_select, h, hscope, element_stack_pop_until, hsplit,
            hpu.1, hpu.2, popped_append, popped_reset_singleton]

/-- C10 witness: an `<input>` start tag in the concrete `<select><option>`
context - the option and select frames are popped, the mode reset, and the
token reprocessed. -/
theorem c10_witness :
    ∃ pref f suff,
      tb_example.element_stack = pref ++ f :: suff ∧
      f.type = element_type.SELECT ∧
      (∀ g ∈ pref, g.type ≠ element_type.SELECT) ∧
      (handle_in_select th_ok tb_example
          (hubbub_token.START_TAG ⟨"input"⟩)).2.1.element_stack = suff ∧
      popped (handle_in_select th_ok tb_example
          (hubbub_token.START_TAG ⟨"input"⟩)).2.2 = pref ++ [f] ∧
      tb_call.reset_insertion_mode ∈
        (handle_in_select th_ok tb_example
          (hubbub_token.START_TAG ⟨"input"⟩)).2.2 ∧
      ((handle_in_select th_ok tb_example
          (hubbub_token.START_TAG ⟨"input"⟩)).1 = true ↔
        element_type_from_name (hubbub_tag.mk "input").name =
          element_type.INPUT ∨
        element_type_from_name (hubbub_tag.mk "input").name =
          element_type.TEXTAREA) :=
  c10_select_like_start_tag th_ok tb_example ⟨"input"⟩
    (Or.inr (Or.inl (by decide))) (by decide)

/-- C5 (counterexample): on the concrete element node at address 1 - attrs
pointer 5, one child, one following sibling - the shallow clone's attrs
pointer equals the original's, so mutable attribute storage is shared rather
than duplicated; and the deep clone's next link holds a clone of the
following sibling, so deep cloning does not restrict itself to the node's
children. -/
theorem c5_counterexample :
    (clone_node 100 node_example false).1.attrs = node_example.attrs ∧
    (clone_node 100 node_example true).1.next =
      some (node_t.mk 101 node_type.ELEMENT "" 9 none none) :=
  ⟨rfl, rfl⟩

/-- A deep clone agrees with its original in type, content and attrs pointer
and, recursively, in its child and sibling chains. -/
theorem clone_deep_matches : ∀ (fresh : Nat) (old : node_t),
    clone_matches (clone_node fresh old true).1 old = true
  | _, node_t.mk _ _ _ _ none none => by
      simp [clone_node, clone_matches]
  | fresh, node_t.mk _ _ _ _ none (some nx) => by
      have ih := clone_deep_matches (fresh + 1) nx
      simp [clone_node, clone_matches, ih]
  | fresh, node_t.mk _ _ _ _ (some ch) none => by
      have ih := clone_deep_matches (fresh + 1) ch
      simp [clone_node, clone_matches, ih]
  | fresh, node_t.mk _ _ _ _ (some ch) (some nx) => by
      have ih1 := clone_deep_matches (fresh + 1) nx
      have ih2 := clone_deep_matches (clone_node (fresh + 1) nx true).2 ch
      simp [clone_node, clone_matches, ih1, ih2]

/-- C5 (amended): clone_node returns a node at a fresh address carrying the
original's type, content and attrs pointer - the struct assignment copies the
attrs pointer, so attribute storage is shared with the original, not
duplicated; a shallow clone (deep false) has all its links reset; a deep
clone recursively clones both the node's child chain and its
following-sibling chain. -/
theorem c5_clone_copies_struct (fresh : Nat) (old : node_t) :
    (clone_node fresh old false).1.addr = fresh ∧
    (clone_node fresh old false).1.type = old.type ∧
    (clone_node fresh old false).1.content = old.content ∧
    (clone_node fresh old false).1.attrs = old.attrs ∧
    (clone_node fresh old false).1.child = none ∧
    (clone_node fresh old false).1.next = none ∧
    clone_matches (clone_node fresh old true).1 old = true := by
  cases old with
  | mk a t c at_ ch nx =>
      refine ⟨?_, ?_, ?_, ?_, ?_, ?_, clone_deep_matches fresh _⟩ <;>
        simp [clone_node.eq_def, node_t.addr, node_t.type, node_t.content,
              node_t.attrs, node_t.child, node_t.next]

/-- Resetting the sibling link keeps the address. -/
theorem clear_next_addr (n : node_t) : (clear_next n).addr = n.addr := by
  cases n; rfl

/-- Resetting the sibling link keeps the node type. -/
theorem clear_next_type (n : node_t) : (clear_next n).type = n.type := by
  cases n; rfl

/-- Resetting the sibling link keeps the content. -/
theorem clear_next_content (n : node_t) : (clear_next n).content = n.content := by
  cases n; rfl

/-- Resetting the sibling link leaves no next sibling. -/
theorem clear_next_next (n : node_t) : (clear_next n).next = none := by
  cases n; rfl

/-- A node with no next sibling is the last of its chain. -/
theorem last_sibling_last (a : Nat) (t : node_type) (c : String) (at_ : Nat)
    (ch : Option node_t) :
    last_sibling (node_t.mk a t c at_ ch none) = node_t.mk a t c at_ ch none := by
  rw [last_sibling.eq_def]

/-- The walk to the last sibling steps over a present next sibling. -/
theorem last_sibling_step (a : Nat) (t : node_type) (c : String) (at_ : Nat)
    (ch : Option node_t) (nx : node_t) :
    last_sibling (node_t.mk a t c at_ ch (some nx)) = last_sibling nx := by
  rw [last_sibling.eq_def]

/-- A node whose next link is clear is its own last sibling. -/
theorem last_sibling_of_next_none (n : node_t) (h : n.next = none) :
    last_sibling n = n := by
  cases n with
  | mk a t c at_ ch nx =>
      cases nx with
      | none => exact last_sibling_last a t c at_ ch
      | some m => simp [node_t.next] at h

/-- Unfolding of append_last at the end of the sibling chain. -/
theorem append_last_at_end (a : Nat) (ty : node_type) (cont : String)
    (attrs : Nat) (ch : Option node_t) (child : node_t) :
    append_last (node_t.mk a ty cont attrs ch none) child =
      if child.type = node_type.CHARACTER ∧ ty = node_type.CHARACTER then
        (node_t.mk a ty (cont ++ child.content) attrs ch none, a)
      else (node_t.mk a ty cont attrs ch (some child), child.addr) := by
  rw [append_last.eq_def]

/-- Unfolding of append_last over a present next sibling. -/
theorem append_last_step (a : Nat) (ty : node_type) (cont : String)
    (attrs : Nat) (ch : Option node_t) (nx child : node_t) :
    append_last (node_t.mk a ty cont attrs ch (some nx)) child =
      (node_t.mk a ty cont attrs ch (some (append_last nx child).1),
       (append_last nx child).2) := by
  rw [append_last.eq_def]

/-- The append_last walk: when the appended child (whose next link is clear)
and the last sibling of the chain are both character nodes, the contents are
concatenated onto that existing last sibling, whose address is the result;
otherwise the child becomes the new last sibling and its own address is the
result. -/
theorem append_last_spec : ∀ (child : node_t), child.next = none →
    ∀ (chain : node_t),
      ((child.type = node_type.CHARACTER ∧
        (last_sibling chain).type = node_type.CHARACTER) →
         (append_last chain child).2 = (last_sibling chain).addr ∧
         last_sibling (append_last chain child).1 =
           node_t.mk (last_sibling chain).addr (last_sibling chain).type
             ((last_sibling chain).content ++ child.content)
             (last_sibling chain).attrs (last_sibling chain).child none) ∧
      (¬(child.type = node_type.CHARACTER ∧
         (last_sibling chain).type = node_type.CHARACTER) →
         (append_last chain child).2 = child.addr ∧
         last_sibling (append_last chain child).1 = child)
  | child, hc, node_t.mk a ty cont attrs ch none => by
      rw [last_sibling_last]
      constructor
      · intro hco
        have h : child.type = node_type.CHARACTER ∧
            ty = node_type.CHARACTER := ⟨hco.1, hco.2⟩
        rw [append_last_at_end, if_pos h]
        refine ⟨rfl, ?_⟩
        rw [last_sibling_last]
        exact rfl
      · intro hnc
        have h : ¬(child.type = node_type.CHARACTER ∧
            ty = node_type.CHARACTER) := fun hh => hnc ⟨hh.1, hh.2⟩
        rw [append_last_at_end, if_neg h]
        refine ⟨rfl, ?_⟩
        rw [last_sibling_step]
        exact last_sibling_of_next_none child hc
  | child, hc, node_t.mk a ty cont attrs ch (some nx) => by
      have ih := append_last_spec child hc nx
      rw [last_sibling_step, append_last_step]
      constructor
      · intro hco
        refine ⟨(ih.1 hco).1, ?_⟩
        rw [last_sibling_step]
        exact (ih.1 hco).2
      · intro hnc
        refine ⟨(ih.2 hnc).1, ?_⟩
        rw [last_sibling_step]
        exact (ih.2 hnc).2

/-- C6: the sample handler's append_child coalesces adjacent text.  When the
appended child is a character node and the last existing child of the parent
is a character node, the two contents are concatenated onto that existing
node and the returned result is the existing node's address - differing from
the child's whenever the two allocations differ; in every other case
(including an empty parent, and the document-sentinel parent) the child
itself, its sibling links cleared, becomes the new last child and its own
address is returned unchanged. -/
theorem c6_append_child_coalesces_text (document : Option node_t)
    (p child : node_t) :
    (∀ pc, p.child = some pc →
      ((child.type = node_type.CHARACTER ∧
        (last_sibling pc).type = node_type.CHARACTER) →
         (append_child document (some p) child).2.2 =
           (last_sibling pc).addr ∧
         ((last_sibling pc).addr ≠ child.addr →
           (append_child document (some p) child).2.2 ≠ child.addr) ∧
         (∃ q chain, (append_child document (some p) child).2.1 = some q ∧
            q.child = some chain ∧
            last_sibling chain =
              node_t.mk (last_sibling pc).addr node_type.CHARACTER
                ((last_sibling pc).content ++ child.content)
                (last_sibling pc).attrs (last_sibling pc).child none)) ∧
      (¬(child.type = node_type.CHARACTER ∧
         (last_sibling pc).type = node_type.CHARACTER) →
         (append_child document (some p) child).2.2 = child.addr ∧
         (∃ q chain, (append_child document (some p) child).2.1 = some q ∧
            q.child = some chain ∧
            last_sibling chain = clear_next child))) ∧
    (p.child = none →
       (append_child document (some p) child).2.2 = child.addr ∧
       (∃ q, (append_child document (some p) child).2.1 = some q ∧
          q.child = some (clear_next child))) ∧
    (∀ doc, document = some doc →
      ((child.type = node_type.CHARACTER ∧
        (last_sibling doc).type = node_type.CHARACTER) →
         (append_child document none child).2.2 = (last_sibling doc).addr ∧
         (∃ d, (append_child document none child).1 = some d ∧
            last_sibling d =
              node_t.mk (last_sibling doc).addr node_type.CHARACTER
                ((last_sibling doc).content ++ child.content)
                (last_sibling doc).attrs (last_sibling doc).child none)) ∧
      (¬(child.type = node_type.CHARACTER ∧
         (last_sibling doc).type = node_type.CHARACTER) →
         (append_child document none child).2.2 = child.addr ∧
         (∃ d, (append_child document none child).1 = some d ∧
            last_sibling d = clear_next child))) ∧
    (document = none →
       (append_child document none child).2.2 = child.addr ∧
       (append_child document none child).1 = some (clear_next child)) := by
  have hs0 := append_last_spec (clear_next child) (clear_next_next child)
  have hcc : (clear_next child).type = child.type := clear_next_type child
  have hca : (clear_next child).addr = child.addr := clear_next_addr child
  have hco : (clear_next child).content = child.content :=
    clear_next_content child
  refine ⟨?_, ?_, ?_, ?_⟩
  · intro pc hpc
    cases p with
    | mk a t cont attrs ch nx =>
        have hch : ch = some pc := hpc
        subst hch
        have hs := hs0 pc
        rw [hcc, hca, hco] at hs
        constructor
        · intro hcoal
          refine ⟨(hs.1 hcoal).1, ?_, ?_⟩
          · intro hne habs
            have habs2 : (append_last pc (clear_next child)).2 =
                child.addr := habs
            rw [(hs.1 hcoal).1] at habs2
            exact hne habs2
          · refine ⟨_, (append_last pc (clear_next child)).1, rfl, rfl, ?_⟩
            rw [(hs.1 hcoal).2, hcoal.2]
        · intro hnc
          refine ⟨(hs.2 hnc).1, _, (append_last pc (clear_next child)).1,
                  rfl, rfl, (hs.2 hnc).2⟩
  · intro hpc
    cases p with
    | mk a t cont attrs ch nx =>
        have hch : ch = none := hpc
        subst hch
        exact ⟨hca, _, rfl, rfl⟩
  · intro doc hdoc
    subst hdoc
    have hs := hs0 doc
    rw [hcc, hca, hco] at hs
    constructor
    · intro hcoal
      refine ⟨(hs.1 hcoal).1, _, rfl, ?_⟩
      rw [(hs.1 hcoal).2, hcoal.2]
    · intro hnc
      exact ⟨(hs.2 hnc).1, _, rfl, (hs.2 hnc).2⟩
  · intro hdoc
    subst hdoc
    exact ⟨hca, rfl⟩

/-- C6 witness: appending the character node "cd" to a parent whose last
child is the character node "ab" at address 4 - the handler returns address
4, not the child's address 6, and the existing node's content becomes
"abcd". -/
theorem c6_witness :
    (append_child none (some node_parent) node_char_cd).2.2 =
      (last_sibling node_char_ab).addr ∧
    ((last_sibling node_char_ab).addr ≠ node_char_cd.addr →
      (append_child none (some node_parent) node_char_cd).2.2 ≠
        node_char_cd.addr) ∧
    (∃ q chain,
       (append_child none (some node_parent) node_char_cd).2.1 = some q ∧
       q.child = some chain ∧
       last_sibling chain =
         node_t.mk (last_sibling node_char_ab).addr node_type.CHARACTER
           ((last_sibling node_char_ab).content ++ node_char_cd.content)
           (last_sibling node_char_ab).attrs
           (last_sibling node_char_ab).child none) :=
  ((c6_append_child_coalesces_text none node_parent node_char_cd).1
      node_char_ab rfl).1 ⟨rfl, rfl⟩

end Hubbub
